import Mathlib

/-!
Shallow embedding of `scripts/create_orb_images.py`.

The script parses PascalVOC-style XML files into nested dictionaries
(`recursive_parse_xml_to_dict`), extracts per-orb crops (`process_orbs`)
and builds a normalized-bbox manifest for whole screens (`process_images`,
`do_screen_processing`).

Python floats are embedded as exact rationals (`ℚ`), Python ints as `ℤ`
(or `ℕ` for lengths).  Python dicts with string keys are embedded as
insertion-ordered association lists, which matches CPython's
insertion-ordered dict semantics.  External effects (PIL image decode,
crop, resize, md5, the filesystem) are modelled by their visible data:
an image is its size and format, a crop call is the rectangle passed to
`PIL.Image.crop`, and the md5 hash is an arbitrary function from pixel
bytes to hex strings.
-/

namespace PadOrb

/-- An XML element as seen by `lxml.etree`: a tag, its text content and its
child elements. -/
inductive XmlTree where
  | node (tag : String) (text : String) (children : List XmlTree)

/-- The tag of an element (`xml.tag` in the script). -/
def XmlTree.tag : XmlTree → String
  | node t _ _ => t

/-- The text of an element (`xml.text` in the script). -/
def XmlTree.text : XmlTree → String
  | node _ s _ => s

/-- The children of an element (iterating over `xml` in the script). -/
def XmlTree.children : XmlTree → List XmlTree
  | node _ _ c => c

/-- A Python value produced by `recursive_parse_xml_to_dict`: a text leaf,
a dict of tag/value pairs, or a list built for repeated `object` tags. -/
inductive PVal where
  | text (s : String)
  | dict (entries : List (String × PVal))
  | seq (items : List PVal)

/-- An insertion-ordered Python dict with string keys. -/
abbrev Dict := List (String × PVal)

/-- Python dict lookup `d[k]` / `k in d`: the first (unique) binding of `k`. -/
def dictGet : Dict → String → Option PVal
  | [], _ => none
  | (k', v') :: rest, k => if k' = k then some v' else dictGet rest k

/-- Python dict assignment `d[k] = v`: overwrite in place if the key exists
(keeping its position, as CPython dicts do), otherwise append at the end. -/
def dictInsert : Dict → String → PVal → Dict
  | [], k, v => [(k, v)]
  | (k', v') :: rest, k, v =>
      if k' = k then (k, v) :: rest else (k', v') :: dictInsert rest k v

/-- The body of the `for child in xml` loop of `recursive_parse_xml_to_dict`,
given the child's tag and its already-computed contribution
`child_result[child.tag]`.  A non-`object` child overwrites
`result[child.tag]`; an `object` child appends to the list at
`result['object']` (creating `[]` first if the key is missing — in any
reachable state the `object` key only ever holds a list). -/
def parseStep (result : Dict) (ctag : String) (cv : PVal) : Dict :=
  if ctag ≠ "object" then dictInsert result ctag cv
  else
    match dictGet result "object" with
    | some (PVal.seq items) => dictInsert result "object" (PVal.seq (items ++ [cv]))
    | _ => dictInsert result "object" (PVal.seq [cv])

mutual

/-- `recursive_parse_xml_to_dict` from the script.  The Python function
always returns the singleton dict `{xml.tag: value}`; we embed that
singleton as the pair `(xml.tag, value)`. -/
def recursive_parse_xml_to_dict : XmlTree → String × PVal
  | .node tag text [] => (tag, PVal.text text)
  | .node tag _ (c :: cs) => (tag, PVal.dict (parseChildren [] (c :: cs)))

/-- The `for child in xml` loop of `recursive_parse_xml_to_dict`, threading
the `result` dict through the children in document order. -/
def parseChildren : Dict → List XmlTree → Dict
  | result, [] => result
  | result, child :: rest =>
      parseChildren (parseStep result child.tag (recursive_parse_xml_to_dict child).2) rest

end

/-- The contribution of the last sibling among `cs` carrying tag `t`
(each successive sibling with the same non-`object` tag overwrites the
previous one). -/
def lastContrib (cs : List XmlTree) (t : String) : Option PVal :=
  match cs with
  | [] => none
  | c :: rest =>
      match lastContrib rest t with
      | some v => some v
      | none =>
          if c.tag = t then some (recursive_parse_xml_to_dict c).2 else none

/-- The contributions of the children of `cs` tagged `object`, in document
order. -/
def objectContribs (cs : List XmlTree) : List PVal :=
  match cs with
  | [] => []
  | c :: rest =>
      if c.tag = "object" then
        (recursive_parse_xml_to_dict c).2 :: objectContribs rest
      else objectContribs rest

theorem dictGet_dictInsert (d : Dict) (k : String) (v : PVal) (t : String) :
    dictGet (dictInsert d k v) t = if k = t then some v else dictGet d t := by
  induction d with
  | nil => simp [dictInsert, dictGet]
  | cons p rest ih =>
      obtain ⟨k', v'⟩ := p
      by_cases hk : k' = k
      · subst hk
        by_cases ht : k' = t <;> simp [dictInsert, dictGet, ht]
      · by_cases ht : k' = t
        · subst ht
          have : ¬ k = k' := fun h => hk h.symm
          simp [dictInsert, dictGet, hk, this]
        · simp [dictInsert, dictGet, hk, ht, ih]

theorem parse_fst (x : XmlTree) : (recursive_parse_xml_to_dict x).1 = x.tag := by
  obtain ⟨t, s, c⟩ := x
  cases c <;> rfl

theorem dictGet_parseStep_ne (acc : Dict) (ctag : String) (cv : PVal)
    (t : String) (h : ctag ≠ t) :
    dictGet (parseStep acc ctag cv) t = dictGet acc t := by
  unfold parseStep
  by_cases hc : ctag = "object"
  · subst hc
    simp only [ne_eq, not_true_eq_false, if_false]
    cases hdo : dictGet acc "object" with
    | none => rw [dictGet_dictInsert, if_neg h]
    | some w => cases w <;> rw [dictGet_dictInsert, if_neg h]
  · rw [if_pos hc, dictGet_dictInsert, if_neg h]

theorem dictGet_parseStep_self (acc : Dict) (ctag : String) (cv : PVal)
    (h : ctag ≠ "object") :
    dictGet (parseStep acc ctag cv) ctag = some cv := by
  unfold parseStep
  rw [if_pos h, dictGet_dictInsert, if_pos rfl]

theorem dictGet_parseStep_object_some (acc : Dict) (cv : PVal)
    (items : List PVal) (hacc : dictGet acc "object" = some (PVal.seq items)) :
    dictGet (parseStep acc "object" cv) "object" =
      some (PVal.seq (items ++ [cv])) := by
  unfold parseStep
  simp only [ne_eq, not_true_eq_false, if_false, hacc]
  rw [dictGet_dictInsert, if_pos rfl]

theorem dictGet_parseStep_object_none (acc : Dict) (cv : PVal)
    (hacc : dictGet acc "object" = none) :
    dictGet (parseStep acc "object" cv) "object" = some (PVal.seq [cv]) := by
  unfold parseStep
  simp only [ne_eq, not_true_eq_false, if_false, hacc]
  rw [dictGet_dictInsert, if_pos rfl]

theorem parseChildren_get_ne (cs : List XmlTree) (acc : Dict) (t : String)
    (ht : t ≠ "object") :
    dictGet (parseChildren acc cs) t =
      match lastContrib cs t with
      | some v => some v
      | none => dictGet acc t := by
  induction cs generalizing acc with
  | nil => simp [parseChildren, lastContrib]
  | cons c rest ih =>
      rw [parseChildren, ih]
      by_cases hc : c.tag = "object"
      · have hct : c.tag ≠ t := by rw [hc]; exact Ne.symm ht
        have hlast : lastContrib (c :: rest) t = lastContrib rest t := by
          rw [lastContrib]
          cases lastContrib rest t <;> simp [hct]
        rw [hlast, dictGet_parseStep_ne _ _ _ _ hct]
      · cases h1 : lastContrib rest t with
        | some v =>
            have : lastContrib (c :: rest) t = some v := by
              rw [lastContrib, h1]
            rw [this]
        | none =>
            have : lastContrib (c :: rest) t =
                if c.tag = t then some (recursive_parse_xml_to_dict c).2
                else none := by
              rw [lastContrib, h1]
            rw [this]
            by_cases hct : c.tag = t
            · subst hct
              rw [dictGet_parseStep_self _ _ _ hc]
              simp
            · rw [if_neg hct, dictGet_parseStep_ne _ _ _ _ hct]

theorem parseChildren_get_object_some (cs : List XmlTree) (acc : Dict)
    (items : List PVal)
    (hacc : dictGet acc "object" = some (PVal.seq items)) :
    dictGet (parseChildren acc cs) "object" =
      some (PVal.seq (items ++ objectContribs cs)) := by
  induction cs generalizing acc items with
  | nil => simp [parseChildren, objectContribs, hacc]
  | cons c rest ih =>
      rw [parseChildren]
      by_cases hc : c.tag = "object"
      · rw [hc, ih _ (items ++ [(recursive_parse_xml_to_dict c).2])
            (dictGet_parseStep_object_some acc _ items hacc)]
        rw [objectContribs, if_pos hc]
        simp
      · rw [ih _ items (by rw [dictGet_parseStep_ne _ _ _ _ hc]; exact hacc)]
        rw [objectContribs, if_neg hc]

theorem parseChildren_get_object_none (cs : List XmlTree) (acc : Dict)
    (hacc : dictGet acc "object" = none) :
    dictGet (parseChildren acc cs) "object" =
      if (objectContribs cs).isEmpty then none
      else some (PVal.seq (objectContribs cs)) := by
  induction cs generalizing acc with
  | nil => simp [parseChildren, objectContribs, hacc]
  | cons c rest ih =>
      rw [parseChildren]
      by_cases hc : c.tag = "object"
      · rw [hc, parseChildren_get_object_some rest _
            [(recursive_parse_xml_to_dict c).2]
            (dictGet_parseStep_object_none acc _ hacc)]
        rw [objectContribs, if_pos hc]
        simp
      · rw [ih _ (by rw [dictGet_parseStep_ne _ _ _ _ hc]; exact hacc)]
        rw [objectContribs, if_neg hc]

/-! ### The orb / scene pipelines -/

/-- Bool-valued: `needle` is an initial segment of `hay`. -/
def startsWithList : List Char → List Char → Bool
  | [], _ => true
  | _ :: _, [] => false
  | a :: as, b :: bs => a = b && startsWithList as bs

/-- Bool-valued: `needle` occurs contiguously somewhere in `hay`. -/
def containsList (needle : List Char) : List Char → Bool
  | [] => startsWithList needle []
  | c :: rest => startsWithList needle (c :: rest) || containsList needle rest

/-- Python's `needle in hay` on strings. -/
def strIn (needle hay : String) : Bool := containsList needle.toList hay.toList

/-- `ORB_SIZE` from the script (side of the square tile). -/
def ORB_SIZE : ℤ := 64

/-- `ORB_EXPANSION_PCT` from the script. -/
def ORB_EXPANSION_PCT : ℚ := 1/10

/-- `MAX_IMG_DIM` from the script. -/
def MAX_IMG_DIM : ℚ := 1024

/-- An `object/bndbox` element: four integer pixel coordinates
(`int(bb['xmin'])` etc. in the script). -/
structure BndBox where
  xmin : ℤ
  ymin : ℤ
  xmax : ℤ
  ymax : ℤ
deriving DecidableEq

/-- One `object` element: a class name and a bounding box. -/
structure ObjDet where
  name : String
  bndbox : BndBox
deriving DecidableEq

/-- The fields of the parsed record that the pipelines read:
`data['filename']`, `int(data['size']['width'])`,
`int(data['size']['height'])` and `data['object']`. -/
structure AnnotationData where
  filename : String
  width : ℤ
  height : ℤ
  objects : List ObjDet
deriving DecidableEq

/-- The externally decoded image: its pixel size and its PIL format. -/
structure Image where
  width : ℤ
  height : ℤ
  format : String
deriving DecidableEq

/-- `load_image` from the script.  It raises `ValueError` when the record
has no `object` key and when the decoded format is not JPEG/PNG; the
actual decoding is external, so the image is a parameter. -/
def load_image (data : Dict) (image : Image) : Except String Image :=
  if (dictGet data "object").isNone then
    Except.error "no objects found"
  else if image.format = "JPEG" ∨ image.format = "PNG" then
    Except.ok image
  else
    Except.error "Image format not JPEG/PNG"

/-- `extract_orb_annotations` from the script:
`[x for x in data['object'] if 'orb' in x['name']]`. -/
def extract_orb_annotations (objects : List ObjDet) : List ObjDet :=
  objects.filter (fun x => strIn "orb" x.name)

/-- A rectangle passed to `PIL.Image.crop`. -/
structure CropRect where
  xmin : ℚ
  ymin : ℚ
  xmax : ℚ
  ymax : ℚ
deriving DecidableEq

/-- The two crop rectangles the `process_orbs` loop builds for one
detection: the tight box verbatim, and the box grown by
`ORB_EXPANSION_PCT` of its own extent on each side, clamped to
`[0, image_width] × [0, image_height]`. -/
def orbCrops (image_width image_height : ℤ) (obj : ObjDet) :
    CropRect × CropRect :=
  let xmin : ℚ := obj.bndbox.xmin
  let xmax : ℚ := obj.bndbox.xmax
  let ymin : ℚ := obj.bndbox.ymin
  let ymax : ℚ := obj.bndbox.ymax
  let x_offset := ORB_EXPANSION_PCT * (xmax - xmin)
  let y_offset := ORB_EXPANSION_PCT * (ymax - ymin)
  (⟨xmin, ymin, xmax, ymax⟩,
   ⟨max 0 (xmin - x_offset), max 0 (ymin - y_offset),
    min (image_width : ℚ) (xmax + x_offset),
    min (image_height : ℚ) (ymax + y_offset)⟩)

/-- `process_orbs` from the script, as the sequence of `save_orb` calls it
performs: for each detection whose name contains `orb`, first the tight
crop and then the expanded crop, each tagged with the class name the tile
is filed under.  Decode, resample and disk writes are external. -/
def process_orbs (data : AnnotationData) (image_width image_height : ℤ) :
    List (String × CropRect) :=
  ((extract_orb_annotations data.objects).map (fun obj =>
    [(obj.name, (orbCrops image_width image_height obj).1),
     (obj.name, (orbCrops image_width image_height obj).2)])).flatten

/-- `os.path.join` for the non-absolute, non-empty components the script
builds paths from. -/
def pathJoin (a b : String) : String := a ++ "/" ++ b

/-- The output path `save_orb` writes one tile to:
`os.path.join(output_dir, class_text, md5(pixels).hexdigest() + '.png')`.
The md5 hex digest is an arbitrary function of the resampled pixel
bytes. -/
def save_orb_path (output_dir class_text : String) (md5hex : List ℤ → String)
    (pixel_bytes : List ℤ) : String :=
  pathJoin (pathJoin output_dir class_text) (md5hex pixel_bytes ++ ".png")

/-- The output path `process_images` writes the rescaled scene to:
`os.path.join(output_dir, 'corrected_images', md5(pixels).hexdigest() + '.png')`. -/
def scene_image_path (output_dir : String) (md5hex : List ℤ → String)
    (pixel_bytes : List ℤ) : String :=
  pathJoin (pathJoin output_dir "corrected_images") (md5hex pixel_bytes ++ ".png")

/-- Python's `int()` on a float/rational: truncation toward zero. -/
def pyInt (q : ℚ) : ℤ := if 0 ≤ q then ⌊q⌋ else -⌊-q⌋

/-- The resize-dimension computation of `process_images`: if the larger
axis exceeds `max_img_dim`, scale both axes by
`1 - (max_dim - max_img_dim)/max_dim`, the longer axis being assigned
`max_img_dim` directly, and truncate; otherwise leave the size alone. -/
def scaled_size (max_img_dim : ℚ) (w h : ℤ) : ℤ × ℤ :=
  let max_dim : ℚ := max (w : ℚ) (h : ℚ)
  if max_dim > max_img_dim then
    let scale_factor : ℚ := 1 - (max_dim - max_img_dim) / max_dim
    if (w : ℚ) > (h : ℚ) then
      (pyInt max_img_dim, pyInt ((h : ℚ) * scale_factor))
    else
      (pyInt ((w : ℚ) * scale_factor), pyInt max_img_dim)
  else (w, h)

/-- A box normalized against image dimensions. -/
structure NormalizedBox where
  xmin : ℚ
  ymin : ℚ
  xmax : ℚ
  ymax : ℚ
deriving DecidableEq

/-- The normalization step of the `process_images` loop:
`float(obj['bndbox'][c]) / width` (resp. `height`) for each coordinate. -/
def normalize_box (width height : ℤ) (bb : BndBox) : NormalizedBox :=
  ⟨(bb.xmin : ℚ) / (width : ℚ), (bb.ymin : ℚ) / (height : ℚ),
   (bb.xmax : ℚ) / (width : ℚ), (bb.ymax : ℚ) / (height : ℚ)⟩

/-- One element of the `results` list `process_images` returns:
`('UNASSIGNED', output_img_path, class_text, xmin, ymin, xmax, ymax)`. -/
structure SceneRow where
  split : String
  path : String
  label : String
  box : NormalizedBox
deriving DecidableEq

/-- `process_images` from the script, as the `results` list it returns.
The count gate runs first; the saved image's path (content-hash based,
see `scene_image_path`) is a parameter since the pixel bytes are
external.  Boxes are normalized against `data['size']`, the original
pre-scale dimensions. -/
def process_images (data : AnnotationData) (output_img_path : String) :
    List SceneRow :=
  let orb_annos := extract_orb_annotations data.objects
  if orb_annos.length ∈ [4*5, 5*6, 6*7] then
    orb_annos.map (fun obj =>
      { split := "UNASSIGNED", path := output_img_path, label := "orb",
        box := normalize_box data.width data.height obj.bndbox })
  else []

/-- Round half to even, Python's `round` on ties. -/
def roundHalfEven (q : ℚ) : ℤ :=
  if Int.fract q < 1/2 then ⌊q⌋
  else if 1/2 < Int.fract q then ⌊q⌋ + 1
  else if ⌊q⌋ % 2 = 0 then ⌊q⌋ else ⌊q⌋ + 1

/-- `pr` from the script: `round(num, 4)`. -/
def pr (q : ℚ) : ℚ := (roundHalfEven (q * 10000) : ℚ) / 10000

/-- One row written to `screen_data.csv`. -/
structure CsvSceneRow where
  split : String
  gcs_path : String
  label : String
  xmin : ℚ
  ymin : ℚ
  poly_x1 : String
  poly_y1 : String
  xmax : ℚ
  ymax : ℚ
  poly_x2 : String
  poly_y2 : String
deriving DecidableEq

/-- `'gs://{}/{}/{}'.format(bucket_path, folder, item_path)`. -/
def gcs_file_path (bucket_path folder item_path : String) : String :=
  "gs://" ++ bucket_path ++ "/" ++ folder ++ "/" ++ item_path

/-- `item[1].replace(screen_output_path + '/', '')`: for the paths built
by `process_images` the replaced string occurs exactly once, at the
start, so this is stripping the leading directory. -/
def dropPrefixStr (pre s : String) : String :=
  if startsWithList pre.toList s.toList then
    String.mk (s.toList.drop pre.toList.length)
  else s

/-- The row the `do_screen_processing` loop writes for one `results`
item: split marker, bucket path, label, the four coordinates rounded by
`pr`, and the four polygon columns left blank. -/
def screen_csv_row (bucket last_output_path screen_output_path : String)
    (item : SceneRow) : CsvSceneRow :=
  { split := item.split
    gcs_path := gcs_file_path bucket last_output_path
      (dropPrefixStr (screen_output_path ++ "/") item.path)
    label := item.label
    xmin := pr item.box.xmin
    ymin := pr item.box.ymin
    poly_x1 := ""
    poly_y1 := ""
    xmax := pr item.box.xmax
    ymax := pr item.box.ymax
    poly_x2 := ""
    poly_y2 := "" }

/-- `do_screen_processing` from the script restricted to its visible
output: the rows appended to `screen_data.csv`, one batch entry per
annotation file, in order.  Each record comes with the content-hash path
its rescaled image was saved under. -/
def do_screen_processing (bucket last_output_path screen_output_path : String)
    (records : List (AnnotationData × String)) : List CsvSceneRow :=
  (records.map (fun r =>
    (process_images r.1 r.2).map
      (screen_csv_row bucket last_output_path screen_output_path))).flatten

/-! ### Claim theorems -/

theorem objectContribs_eq_nil (cs : List XmlTree)
    (h : ∀ c ∈ cs, c.tag ≠ "object") : objectContribs cs = [] := by
  induction cs with
  | nil => rfl
  | cons c rest ih =>
      rw [objectContribs, if_neg (h c (List.mem_cons_self c rest))]
      exact ih fun c' hc' => h c' (List.mem_cons_of_mem c hc')

/-- C1: the parser maps a leaf node (no children) to `{tag: text}`.  For an
internal node it returns `{tag: result}` where, in `result`, looking up any
non-`object` tag yields the contribution of the LAST sibling with that tag
(later siblings overwrite earlier ones), while the `object` key holds the
sequence of the contributions of all `object`-tagged children in document
order (and is present exactly when there is at least one such child). -/
theorem C1_recursive_parse_characterization
    (tag text : String) (cs : List XmlTree) (t : String)
    (hne : cs ≠ []) (ht : t ≠ "object") :
    recursive_parse_xml_to_dict (XmlTree.node tag text []) =
      (tag, PVal.text text) ∧
    recursive_parse_xml_to_dict (XmlTree.node tag text cs) =
      (tag, PVal.dict (parseChildren [] cs)) ∧
    dictGet (parseChildren [] cs) t = lastContrib cs t ∧
    dictGet (parseChildren [] cs) "object" =
      (if (objectContribs cs).isEmpty then none
       else some (PVal.seq (objectContribs cs))) := by
  refine ⟨rfl, ?_, ?_, ?_⟩
  · cases cs with
    | nil => exact absurd rfl hne
    | cons c cs' => rfl
  · rw [parseChildren_get_ne cs [] t ht]
    cases lastContrib cs t <;> rfl
  · exact parseChildren_get_object_none cs [] rfl

/-- A small concrete document body: two `filename` leaves (the second must
win) and one `object` child. -/
def sampleChildren : List XmlTree :=
  [XmlTree.node "filename" "a.jpg" [], XmlTree.node "filename" "b.jpg" [],
   XmlTree.node "object" "" [XmlTree.node "name" "orb_red" []]]

theorem C1_recursive_parse_characterization_witness :
    recursive_parse_xml_to_dict (XmlTree.node "annotation" "txt" []) =
      ("annotation", PVal.text "txt") ∧
    recursive_parse_xml_to_dict (XmlTree.node "annotation" "txt" sampleChildren) =
      ("annotation", PVal.dict (parseChildren [] sampleChildren)) ∧
    dictGet (parseChildren [] sampleChildren) "filename" =
      lastContrib sampleChildren "filename" ∧
    dictGet (parseChildren [] sampleChildren) "object" =
      (if (objectContribs sampleChildren).isEmpty then none
       else some (PVal.seq (objectContribs sampleChildren))) :=
  C1_recursive_parse_characterization "annotation" "txt" sampleChildren
    "filename" (by simp [sampleChildren]) (by decide)

/-- C2 counterexample: on the document `<annotation><filename>x.jpg</filename>
</annotation>` (zero `object` elements), the parsed record has NO `object`
key (so the claimed empty sequence does not exist), and processing fails:
`load_image` rejects the record with `ValueError('no objects found ...')`. -/
theorem C2_zero_objects_counterexample :
    dictGet (parseChildren [] [XmlTree.node "filename" "x.jpg" []]) "object" =
      none ∧
    load_image (parseChildren [] [XmlTree.node "filename" "x.jpg" []])
      ⟨100, 100, "PNG"⟩ = Except.error "no objects found" := by
  exact ⟨rfl, rfl⟩

/-- C2 (amended): for every well-formed document with zero `object`
elements, parsing still succeeds (the parser is total and returns the
record built from the non-`object` children), but the resulting record has
NO `object` entry at all — the key is simply absent, not an empty
sequence — and processing such a record DOES fail: `load_image` raises
`ValueError('no objects found ...')` whatever the decoded image is. -/
theorem C2_zero_objects_amended (tag text : String) (cs : List XmlTree)
    (img : Image) (h : ∀ c ∈ cs, c.tag ≠ "object") :
    recursive_parse_xml_to_dict (XmlTree.node tag text cs) =
      (tag, if cs.isEmpty then PVal.text text
            else PVal.dict (parseChildren [] cs)) ∧
    dictGet (parseChildren [] cs) "object" = none ∧
    load_image (parseChildren [] cs) img =
      Except.error "no objects found" := by
  have hnone : dictGet (parseChildren [] cs) "object" = none := by
    rw [parseChildren_get_object_none cs [] rfl, objectContribs_eq_nil cs h]
    rfl
  refine ⟨?_, hnone, ?_⟩
  · cases cs <;> rfl
  · unfold load_image
    rw [hnone]
    rfl

theorem C2_zero_objects_amended_witness :
    recursive_parse_xml_to_dict
        (XmlTree.node "annotation" ""
          [XmlTree.node "filename" "x.jpg" [],
           XmlTree.node "size" ""
             [XmlTree.node "width" "10" [], XmlTree.node "height" "10" []]]) =
      ("annotation",
       if ([XmlTree.node "filename" "x.jpg" [],
            XmlTree.node "size" ""
              [XmlTree.node "width" "10" [],
               XmlTree.node "height" "10" []]] : List XmlTree).isEmpty then
         PVal.text ""
       else
         PVal.dict (parseChildren []
           [XmlTree.node "filename" "x.jpg" [],
            XmlTree.node "size" ""
              [XmlTree.node "width" "10" [],
               XmlTree.node "height" "10" []]])) ∧
    dictGet (parseChildren []
        [XmlTree.node "filename" "x.jpg" [],
         XmlTree.node "size" ""
           [XmlTree.node "width" "10" [], XmlTree.node "height" "10" []]])
      "object" = none ∧
    load_image (parseChildren []
        [XmlTree.node "filename" "x.jpg" [],
         XmlTree.node "size" ""
           [XmlTree.node "width" "10" [], XmlTree.node "height" "10" []]])
      ⟨32, 64, "JPEG"⟩ = Except.error "no objects found" :=
  C2_zero_objects_amended "annotation" ""
    [XmlTree.node "filename" "x.jpg" [],
     XmlTree.node "size" ""
       [XmlTree.node "width" "10" [], XmlTree.node "height" "10" []]]
    ⟨32, 64, "JPEG"⟩
    (by intro c hc; fin_cases hc <;> decide)

/-- The expanded crop contains the tight crop. -/
def rectContains (outer inner : CropRect) : Prop :=
  outer.xmin ≤ inner.xmin ∧ outer.ymin ≤ inner.ymin ∧
  inner.xmax ≤ outer.xmax ∧ inner.ymax ≤ outer.ymax

instance (outer inner : CropRect) : Decidable (rectContains outer inner) :=
  inferInstanceAs (Decidable (_ ∧ _ ∧ _ ∧ _))

/-- The rectangle lies within `[0, w] × [0, h]`. -/
def rectWithin (r : CropRect) (w h : ℚ) : Prop :=
  0 ≤ r.xmin ∧ r.xmin ≤ w ∧ 0 ≤ r.xmax ∧ r.xmax ≤ w ∧
  0 ≤ r.ymin ∧ r.ymin ≤ h ∧ 0 ≤ r.ymax ∧ r.ymax ≤ h

instance (r : CropRect) (w h : ℚ) : Decidable (rectWithin r w h) :=
  inferInstanceAs (Decidable (_ ∧ _ ∧ _ ∧ _ ∧ _ ∧ _ ∧ _ ∧ _))

/-- C3 counterexample: the detection `orb_red` with bndbox
`(-10, 5, 10, 15)` in a 100×100 image is processed by the orb pipeline
(nothing validates bndboxes), yet its tight crop starts at x = -10, outside
`[0, 100]`, and the clamped expanded crop starts at x = 0 > -10, so it does
not contain the tight crop. -/
theorem C3_crop_containment_counterexample :
    ¬ (rectContains (orbCrops 100 100 ⟨"orb_red", ⟨-10, 5, 10, 15⟩⟩).2
         (orbCrops 100 100 ⟨"orb_red", ⟨-10, 5, 10, 15⟩⟩).1 ∧
       rectWithin (orbCrops 100 100 ⟨"orb_red", ⟨-10, 5, 10, 15⟩⟩).1 100 100 ∧
       rectWithin (orbCrops 100 100 ⟨"orb_red", ⟨-10, 5, 10, 15⟩⟩).2 100 100) := by
  intro hcl
  obtain ⟨-, hw1, -⟩ := hcl
  simp only [rectWithin, orbCrops] at hw1
  norm_num at hw1

/-- C3 (amended): for every detection whose bndbox already satisfies
`0 ≤ xmin ≤ xmax ≤ image_width` and `0 ≤ ymin ≤ ymax ≤ image_height`
(the invariant the code assumes but never checks), the expanded crop fully
contains the tight crop and both crops lie within
`[0, image_width] × [0, image_height]`. -/
theorem C3_crop_containment_amended (W H x0 y0 x1 y1 : ℤ) (nm : String)
    (hx0 : 0 ≤ x0) (hx1 : x0 ≤ x1) (hx2 : x1 ≤ W)
    (hy0 : 0 ≤ y0) (hy1 : y0 ≤ y1) (hy2 : y1 ≤ H) :
    rectContains (orbCrops W H ⟨nm, ⟨x0, y0, x1, y1⟩⟩).2
      (orbCrops W H ⟨nm, ⟨x0, y0, x1, y1⟩⟩).1 ∧
    rectWithin (orbCrops W H ⟨nm, ⟨x0, y0, x1, y1⟩⟩).1 W H ∧
    rectWithin (orbCrops W H ⟨nm, ⟨x0, y0, x1, y1⟩⟩).2 W H := by
  have q0 : (0 : ℚ) ≤ (x0 : ℚ) := by exact_mod_cast hx0
  have q1 : (x0 : ℚ) ≤ (x1 : ℚ) := by exact_mod_cast hx1
  have q2 : (x1 : ℚ) ≤ (W : ℚ) := by exact_mod_cast hx2
  have r0 : (0 : ℚ) ≤ (y0 : ℚ) := by exact_mod_cast hy0
  have r1 : (y0 : ℚ) ≤ (y1 : ℚ) := by exact_mod_cast hy1
  have r2 : (y1 : ℚ) ≤ (H : ℚ) := by exact_mod_cast hy2
  simp only [orbCrops, rectContains, rectWithin, ORB_EXPANSION_PCT]
  refine ⟨⟨?_, ?_, ?_, ?_⟩, ⟨?_, ?_, ?_, ?_, ?_, ?_, ?_, ?_⟩,
    ⟨?_, ?_, ?_, ?_, ?_, ?_, ?_, ?_⟩⟩
  · exact max_le q0 (by linarith)
  · exact max_le r0 (by linarith)
  · exact le_min q2 (by linarith)
  · exact le_min r2 (by linarith)
  · exact q0
  · linarith
  · linarith
  · exact q2
  · exact r0
  · linarith
  · linarith
  · exact r2
  · exact le_max_left 0 _
  · exact max_le (by linarith) (by linarith)
  · exact le_min (by linarith) (by linarith)
  · exact min_le_left _ _
  · exact le_max_left 0 _
  · exact max_le (by linarith) (by linarith)
  · exact le_min (by linarith) (by linarith)
  · exact min_le_left _ _

theorem C3_crop_containment_amended_witness :
    rectContains (orbCrops 1000 500 ⟨"orb_red", ⟨100, 100, 200, 200⟩⟩).2
      (orbCrops 1000 500 ⟨"orb_red", ⟨100, 100, 200, 200⟩⟩).1 ∧
    rectWithin (orbCrops 1000 500 ⟨"orb_red", ⟨100, 100, 200, 200⟩⟩).1
      1000 500 ∧
    rectWithin (orbCrops 1000 500 ⟨"orb_red", ⟨100, 100, 200, 200⟩⟩).2
      1000 500 :=
  C3_crop_containment_amended 1000 500 100 100 200 200 "orb_red"
    (by decide) (by decide) (by decide) (by decide) (by decide) (by decide)

theorem pyInt_intCast (n : ℤ) : pyInt (n : ℚ) = n := by
  unfold pyInt
  by_cases h : (0 : ℚ) ≤ (n : ℚ)
  · rw [if_pos h, Int.floor_intCast]
  · rw [if_neg h, ← Int.cast_neg, Int.floor_intCast, neg_neg]

theorem scale_mul_eq (M m x : ℚ) (hM : M ≠ 0) :
    x * (1 - (M - m) / M) = x * m / M := by
  field_simp

/-- C4: when `max(width, height) ≤ max_dim` the computed size is unchanged;
otherwise the longer axis becomes exactly `max_dim` and the shorter axis
becomes its original length scaled by `max_dim / max(width, height)` and
truncated.  In particular `(2000, 1000)` at `max_dim = 1024` gives
`(1024, 512)` and `(800, 600)` stays `(800, 600)`. -/
theorem C4_scaled_size (w h m : ℤ) (hw : 0 < w) (hh : 0 < h) (_hm : 0 < m) :
    (max w h ≤ m → scaled_size (m : ℚ) w h = (w, h)) ∧
    (m < max w h →
      scaled_size (m : ℚ) w h =
        ((if h ≤ w then m
          else pyInt ((w : ℚ) * (m : ℚ) / ((max w h : ℤ) : ℚ))),
         (if w ≤ h then m
          else pyInt ((h : ℚ) * (m : ℚ) / ((max w h : ℤ) : ℚ))))) ∧
    scaled_size 1024 2000 1000 = (1024, 512) ∧
    scaled_size 1024 800 600 = (800, 600) := by
  have hcast : max (w : ℚ) (h : ℚ) = ((max w h : ℤ) : ℚ) := by
    rw [Int.cast_max]
  have hMpos : (0 : ℚ) < max (w : ℚ) (h : ℚ) := by
    have : (0 : ℚ) < (w : ℚ) := by exact_mod_cast hw
    exact lt_max_of_lt_left this
  refine ⟨?_, ?_, by norm_num [scaled_size, pyInt, max_def],
    by norm_num [scaled_size, pyInt, max_def]⟩
  · intro hle
    have : ¬ max (w : ℚ) (h : ℚ) > (m : ℚ) := by
      rw [hcast]
      exact not_lt.mpr (by exact_mod_cast hle)
    simp only [scaled_size]
    rw [if_neg this]
  · intro hgt
    have hgtq : max (w : ℚ) (h : ℚ) > (m : ℚ) := by
      rw [hcast]
      exact_mod_cast hgt
    simp only [scaled_size]
    rw [if_pos hgtq]
    by_cases hwh : (h : ℚ) < (w : ℚ)
    · have hZ : h < w := by exact_mod_cast hwh
      have hmax : max w h = w := max_eq_left hZ.le
      have hmaxq : max (w : ℚ) (h : ℚ) = (w : ℚ) := max_eq_left hwh.le
      rw [if_pos hwh, if_pos hZ.le, if_neg (not_le.mpr hZ)]
      refine Prod.ext ?_ ?_
      · exact pyInt_intCast m
      · show pyInt ((h : ℚ) * (1 - (max (w:ℚ) (h:ℚ) - (m:ℚ)) / max (w:ℚ) (h:ℚ))) =
          pyInt ((h : ℚ) * (m : ℚ) / ((max w h : ℤ) : ℚ))
        rw [scale_mul_eq _ _ _ (ne_of_gt hMpos), hcast]
    · have hq : (w : ℚ) ≤ (h : ℚ) := not_lt.mp hwh
      have hZ : w ≤ h := by exact_mod_cast hq
      have hmaxq : max (w : ℚ) (h : ℚ) = (h : ℚ) := max_eq_right hq
      rw [if_neg hwh, if_pos hZ]
      refine Prod.ext ?_ ?_
      · show pyInt ((w : ℚ) * (1 - (max (w:ℚ) (h:ℚ) - (m:ℚ)) / max (w:ℚ) (h:ℚ))) =
          (if h ≤ w then m
           else pyInt ((w : ℚ) * (m : ℚ) / ((max w h : ℤ) : ℚ)))
        rw [scale_mul_eq _ _ _ (ne_of_gt hMpos)]
        by_cases hhw : h ≤ w
        · have hew : w = h := le_antisymm hZ hhw
          rw [if_pos hhw]
          subst hew
          rw [max_self]
          have : (w : ℚ) * (m : ℚ) / (w : ℚ) = (m : ℚ) := by
            field_simp
          rw [this, pyInt_intCast]
        · rw [if_neg hhw, hcast]
      · exact pyInt_intCast m

theorem C4_scaled_size_witness :
    (max (2000 : ℤ) 1000 ≤ 1024 →
      scaled_size (((1024 : ℤ) : ℚ)) 2000 1000 = (2000, 1000)) ∧
    ((1024 : ℤ) < max (2000 : ℤ) 1000 →
      scaled_size (((1024 : ℤ) : ℚ)) 2000 1000 =
        ((if (1000 : ℤ) ≤ 2000 then (1024 : ℤ)
          else pyInt (((2000 : ℤ) : ℚ) * ((1024 : ℤ) : ℚ) /
            ((max (2000 : ℤ) 1000 : ℤ) : ℚ))),
         (if (2000 : ℤ) ≤ 1000 then (1024 : ℤ)
          else pyInt (((1000 : ℤ) : ℚ) * ((1024 : ℤ) : ℚ) /
            ((max (2000 : ℤ) 1000 : ℤ) : ℚ))))) ∧
    scaled_size 1024 2000 1000 = (1024, 512) ∧
    scaled_size 1024 800 600 = (800, 600) :=
  C4_scaled_size 2000 1000 1024 (by decide) (by decide) (by decide)

/-- C5: scene processing emits manifest rows only when the orb-detection
count is one of 20, 30, 42: for any other count the record contributes no
rows (`process_images` returns `[]` rather than raising) and the batch
output is exactly as if the record were absent, so processing continues
with the next record. -/
theorem C5_count_gate (data : AnnotationData) (path bucket last out : String)
    (pre post : List (AnnotationData × String))
    (h : (extract_orb_annotations data.objects).length ∉
      ([4 * 5, 5 * 6, 6 * 7] : List ℕ)) :
    process_images data path = [] ∧
    do_screen_processing bucket last out (pre ++ (data, path) :: post) =
      do_screen_processing bucket last out (pre ++ post) := by
  have h1 : process_images data path = [] := by
    simp only [process_images]
    rw [if_neg h]
  refine ⟨h1, ?_⟩
  simp [do_screen_processing, h1]

/-- A detection whose class name contains `orb`. -/
def sampleOrb : ObjDet := ⟨"orb_fire", ⟨1, 2, 3, 4⟩⟩

/-- A record with 19 orb detections: 19 is not a whitelisted count. -/
def data19 : AnnotationData := ⟨"f.jpg", 1000, 500, List.replicate 19 sampleOrb⟩

theorem C5_count_gate_witness :
    process_images data19 "out/corrected_images/k.png" = [] ∧
    do_screen_processing "b" "screens" "out"
        ([] ++ (data19, "out/corrected_images/k.png") :: []) =
      do_screen_processing "b" "screens" "out" ([] ++ []) :=
  C5_count_gate data19 "out/corrected_images/k.png" "b" "screens" "out" [] []
    (by decide)

/-- A detection named `orb_red` with a box inside a 1000×500 image. -/
def orbObj : ObjDet := ⟨"orb_red", ⟨100, 100, 200, 200⟩⟩

/-- A detection whose name does not contain `orb`. -/
def bgObj : ObjDet := ⟨"background", ⟨0, 0, 5, 5⟩⟩

/-- A record with 21 detections, 20 of which are orb-named. -/
def data21 : AnnotationData :=
  ⟨"g.jpg", 1000, 500, List.replicate 20 orbObj ++ [bgObj]⟩

/-- C6 counterexample: `data21` passes count validation (its 20 orb-named
detections hit the whitelist) and holds 21 detections, yet only 20 rows
are produced — the detection named `background` gets no manifest row,
refuting "exactly one manifest row is appended per detection". -/
theorem C6_row_per_detection_counterexample :
    data21.objects.length = 21 ∧
    (process_images data21 "p").length = 20 := by
  exact ⟨by decide, by decide⟩

/-- C6 (amended): for every record that passes count validation, exactly
one manifest row is appended per detection WHOSE NAME CONTAINS `orb`, in
source-annotation order, with split marker `UNASSIGNED`, label the literal
`orb` regardless of the detection's own class name, coordinates equal to
the bndbox divided by the original `data['size']` dimensions and rounded
to 4 decimal digits, and the four polygon columns blank. -/
theorem C6_manifest_rows_amended (data : AnnotationData)
    (path bucket last out : String)
    (h : (extract_orb_annotations data.objects).length ∈
      ([4 * 5, 5 * 6, 6 * 7] : List ℕ)) :
    (process_images data path).map (screen_csv_row bucket last out) =
      (extract_orb_annotations data.objects).map (fun obj =>
        { split := "UNASSIGNED"
          gcs_path := gcs_file_path bucket last
            (dropPrefixStr (out ++ "/") path)
          label := "orb"
          xmin := pr ((obj.bndbox.xmin : ℚ) / (data.width : ℚ))
          ymin := pr ((obj.bndbox.ymin : ℚ) / (data.height : ℚ))
          poly_x1 := ""
          poly_y1 := ""
          xmax := pr ((obj.bndbox.xmax : ℚ) / (data.width : ℚ))
          ymax := pr ((obj.bndbox.ymax : ℚ) / (data.height : ℚ))
          poly_x2 := ""
          poly_y2 := "" }) := by
  simp only [process_images]
  rw [if_pos h, List.map_map]
  refine List.map_congr_left fun obj _ => ?_
  simp [screen_csv_row, normalize_box, Function.comp]

theorem C6_manifest_rows_amended_witness :
    (process_images data21 "out/corrected_images/k.png").map
        (screen_csv_row "b" "screens" "out") =
      (extract_orb_annotations data21.objects).map (fun obj =>
        { split := "UNASSIGNED"
          gcs_path := gcs_file_path "b" "screens"
            (dropPrefixStr ("out" ++ "/") "out/corrected_images/k.png")
          label := "orb"
          xmin := pr ((obj.bndbox.xmin : ℚ) / (data21.width : ℚ))
          ymin := pr ((obj.bndbox.ymin : ℚ) / (data21.height : ℚ))
          poly_x1 := ""
          poly_y1 := ""
          xmax := pr ((obj.bndbox.xmax : ℚ) / (data21.width : ℚ))
          ymax := pr ((obj.bndbox.ymax : ℚ) / (data21.height : ℚ))
          poly_x2 := ""
          poly_y2 := "" }) :=
  C6_manifest_rows_amended data21 "out/corrected_images/k.png" "b" "screens"
    "out" (by decide)

/-- C7 counterexample: the detection box `(100, 100, 2000, 200)` against
claimed positive dimensions 1000×500 normalizes `xmax` to 2, outside
`[0, 1]` — the code divides without any clamping or validation. -/
theorem C7_normalized_range_counterexample :
    ¬ ((normalize_box 1000 500 ⟨100, 100, 2000, 200⟩).xmax ≤ 1) := by
  simp only [normalize_box]
  norm_num

/-- C7 (amended): for every detection whose bndbox lies within the image
(`0 ≤ xmin ≤ xmax ≤ width`, `0 ≤ ymin ≤ ymax ≤ height`) and all positive
image dimensions, the normalized box has all four coordinates in
`[0, 1]`. -/
theorem C7_normalized_range_amended (w h : ℤ) (bb : BndBox)
    (hw : 0 < w) (hh : 0 < h)
    (h1 : 0 ≤ bb.xmin) (h2 : bb.xmin ≤ bb.xmax) (h3 : bb.xmax ≤ w)
    (h4 : 0 ≤ bb.ymin) (h5 : bb.ymin ≤ bb.ymax) (h6 : bb.ymax ≤ h) :
    0 ≤ (normalize_box w h bb).xmin ∧ (normalize_box w h bb).xmin ≤ 1 ∧
    0 ≤ (normalize_box w h bb).ymin ∧ (normalize_box w h bb).ymin ≤ 1 ∧
    0 ≤ (normalize_box w h bb).xmax ∧ (normalize_box w h bb).xmax ≤ 1 ∧
    0 ≤ (normalize_box w h bb).ymax ∧ (normalize_box w h bb).ymax ≤ 1 := by
  have hwq : (0 : ℚ) < (w : ℚ) := by exact_mod_cast hw
  have hhq : (0 : ℚ) < (h : ℚ) := by exact_mod_cast hh
  have q1 : (0 : ℚ) ≤ (bb.xmin : ℚ) := by exact_mod_cast h1
  have q2 : (bb.xmin : ℚ) ≤ (bb.xmax : ℚ) := by exact_mod_cast h2
  have q3 : (bb.xmax : ℚ) ≤ (w : ℚ) := by exact_mod_cast h3
  have q4 : (0 : ℚ) ≤ (bb.ymin : ℚ) := by exact_mod_cast h4
  have q5 : (bb.ymin : ℚ) ≤ (bb.ymax : ℚ) := by exact_mod_cast h5
  have q6 : (bb.ymax : ℚ) ≤ (h : ℚ) := by exact_mod_cast h6
  simp only [normalize_box]
  refine ⟨?_, ?_, ?_, ?_, ?_, ?_, ?_, ?_⟩
  · exact div_nonneg q1 hwq.le
  · exact (div_le_one hwq).mpr (by linarith)
  · exact div_nonneg q4 hhq.le
  · exact (div_le_one hhq).mpr (by linarith)
  · exact div_nonneg (by linarith) hwq.le
  · exact (div_le_one hwq).mpr q3
  · exact div_nonneg (by linarith) hhq.le
  · exact (div_le_one hhq).mpr q6

theorem C7_normalized_range_amended_witness :
    0 ≤ (normalize_box 1000 500 ⟨100, 100, 200, 200⟩).xmin ∧
    (normalize_box 1000 500 ⟨100, 100, 200, 200⟩).xmin ≤ 1 ∧
    0 ≤ (normalize_box 1000 500 ⟨100, 100, 200, 200⟩).ymin ∧
    (normalize_box 1000 500 ⟨100, 100, 200, 200⟩).ymin ≤ 1 ∧
    0 ≤ (normalize_box 1000 500 ⟨100, 100, 200, 200⟩).xmax ∧
    (normalize_box 1000 500 ⟨100, 100, 200, 200⟩).xmax ≤ 1 ∧
    0 ≤ (normalize_box 1000 500 ⟨100, 100, 200, 200⟩).ymax ∧
    (normalize_box 1000 500 ⟨100, 100, 200, 200⟩).ymax ≤ 1 :=
  C7_normalized_range_amended 1000 500 ⟨100, 100, 200, 200⟩
    (by decide) (by decide) (by decide) (by decide) (by decide)
    (by decide) (by decide) (by decide)

/-- A detection lying entirely to the right of a 100×100 image. -/
def outOfBoundsOrb : ObjDet := ⟨"orb_dark", ⟨200, 5, 210, 15⟩⟩

/-- A record whose single orb detection lies outside the image. -/
def data8 : AnnotationData := ⟨"h.jpg", 100, 100, [outOfBoundsOrb]⟩

/-- C8: the orb pipeline has NO zero/negative-extent guard: on `data8` the
clamped expanded crop degenerates to `xmin = 199 > 100 = xmax`, yet
`process_orbs` still issues both crop calls — the degenerate rectangle is
passed straight to `PIL.Image.crop` instead of being skipped or failed. -/
theorem C8_no_zero_extent_guard :
    process_orbs data8 100 100 =
      [("orb_dark", ⟨200, 5, 210, 15⟩), ("orb_dark", ⟨199, 4, 100, 16⟩)] ∧
    ((process_orbs data8 100 100).getD 1 ("", ⟨0, 0, 1, 1⟩)).2.xmax <
      ((process_orbs data8 100 100).getD 1 ("", ⟨0, 0, 1, 1⟩)).2.xmin := by
  have h : process_orbs data8 100 100 =
      [("orb_dark", ⟨200, 5, 210, 15⟩), ("orb_dark", ⟨199, 4, 100, 16⟩)] := by
    simp only [process_orbs, extract_orb_annotations, data8, outOfBoundsOrb]
    norm_num [strIn, containsList, startsWithList, orbCrops, ORB_EXPANSION_PCT]
  refine ⟨h, ?_⟩
  rw [h]
  simp only [List.getD]
  norm_num

/-- C9: in scene mode a detection without `orb` in its class name
contributes neither to the gating count nor to any manifest row: removing
it from anywhere in the record changes neither the extracted list, nor its
length, nor the rows `process_images` returns. -/
theorem C9_non_orb_ignored (pre post : List ObjDet) (d : ObjDet)
    (fn : String) (w h : ℤ) (path : String)
    (hd : strIn "orb" d.name = false) :
    extract_orb_annotations (pre ++ d :: post) =
      extract_orb_annotations (pre ++ post) ∧
    (extract_orb_annotations (pre ++ d :: post)).length =
      (extract_orb_annotations (pre ++ post)).length ∧
    process_images ⟨fn, w, h, pre ++ d :: post⟩ path =
      process_images ⟨fn, w, h, pre ++ post⟩ path := by
  have h1 : extract_orb_annotations (pre ++ d :: post) =
      extract_orb_annotations (pre ++ post) := by
    simp [extract_orb_annotations, List.filter_append, List.filter_cons, hd]
  refine ⟨h1, by rw [h1], ?_⟩
  simp only [process_images]
  rw [h1]

theorem C9_non_orb_ignored_witness :
    extract_orb_annotations ([orbObj] ++ bgObj :: [orbObj]) =
      extract_orb_annotations ([orbObj] ++ [orbObj]) ∧
    (extract_orb_annotations ([orbObj] ++ bgObj :: [orbObj])).length =
      (extract_orb_annotations ([orbObj] ++ [orbObj])).length ∧
    process_images ⟨"g.jpg", 1000, 500, [orbObj] ++ bgObj :: [orbObj]⟩ "p" =
      process_images ⟨"g.jpg", 1000, 500, [orbObj] ++ [orbObj]⟩ "p" :=
  C9_non_orb_ignored [orbObj] [orbObj] bgObj "g.jpg" 1000 500 "p" (by decide)

/-- C10: an output image's path is a function only of the destination
directory, the class label and the resampled pixel bytes — it is exactly
`dir/label/md5hex(bytes).png` — so any two crops with byte-identical
resampled pixels (tight vs expanded of one detection, within one run or
across runs) are written to the same path; the scene pipeline's
`corrected_images` path behaves the same way. -/
theorem C10_content_addressed_path (dir label : String)
    (md5hex : List ℤ → String) (b1 b2 : List ℤ) (h : b1 = b2) :
    save_orb_path dir label md5hex b1 =
      pathJoin (pathJoin dir label) (md5hex b1 ++ ".png") ∧
    save_orb_path dir label md5hex b1 = save_orb_path dir label md5hex b2 ∧
    scene_image_path dir md5hex b1 = scene_image_path dir md5hex b2 := by
  subst h
  exact ⟨rfl, rfl, rfl⟩

theorem C10_content_addressed_path_witness :
    save_orb_path "data/extracted_orb_images" "orb_red" (fun _ => "k")
        [0, 1, 2] =
      pathJoin (pathJoin "data/extracted_orb_images" "orb_red")
        ((fun _ => "k") [0, 1, 2] ++ ".png") ∧
    save_orb_path "data/extracted_orb_images" "orb_red" (fun _ => "k")
        [0, 1, 2] =
      save_orb_path "data/extracted_orb_images" "orb_red" (fun _ => "k")
        [0, 1, 2] ∧
    scene_image_path "data/extracted_orb_images" (fun _ => "k") [0, 1, 2] =
      scene_image_path "data/extracted_orb_images" (fun _ => "k") [0, 1, 2] :=
  C10_content_addressed_path "data/extracted_orb_images" "orb_red"
    (fun _ => "k") [0, 1, 2] [0, 1, 2] rfl

end PadOrb
